import Mathlib

/-!
Verification development for the Constitutional-Ontology repository.

Part 1 embeds `src/app/soft_ontology_manager.py` (class `SoftOntologyManager`):
documents, extracted rules, conflict resolutions, and the operations
`add_document`, `remove_document`, `parse_policy_rules` (primary OpenAI strategy
and keyword fallback), `detect_conflicts`, `resolve_conflict`, `get_active_rules`.

Part 2 embeds the gated execution orchestrator of `src/app.py`
(`execute_tool_with_enforcement`, `continue_execution_after_approval`,
`_process_remaining_tool_calls`, `_process_response`, `run_demo_scenario`).

Modelling conventions:
- Python dicts with a fixed key set become structures; a key that is present in
  some records and absent in others becomes an `Option` field (`none` = key absent),
  so that structure equality models Python dict equality.
- Timestamps (`datetime.utcnow()`) are abstracted as a `Nat` "now" argument.
- Python floats are modelled as `ℚ` (the only confidence value the claims touch,
  0.5, is exact in both representations).
- The external OpenAI service is a parameter: a function from the submitted text
  to `Option (List RawRule)`; `none` models all of "no client", "API error",
  "JSON decode error" (each of which makes `_parse_with_openai` return `[]`).
-/

namespace SoftOntology

/-- One extracted rule record, as built by `_parse_with_openai` (lines 273-285)
or `_parse_with_keywords` (lines 304-315) of `soft_ontology_manager.py`.
`source_document_name` is `none` for keyword-extracted rules, whose dicts have
no such key. -/
structure ExtractedRule where
  id : String
  source_document : String
  source_document_name : Option String
  text : String
  rule_type : String
  key_requirements : List String
  time_periods : List String
  context : String
  extracted_date : Nat
  confidence : ℚ
  extraction_method : String
deriving DecidableEq, Repr

/-- One uploaded document, as built by `add_document` (lines 24-33). Raw bytes
are modelled as a list of naturals. -/
structure SoftDocument where
  id : String
  name : String
  ftype : String
  upload_date : Nat
  size : Nat
  content : List Nat
  extracted_text : Option String
  status : String
deriving DecidableEq, Repr

/-- One record of the `conflict_resolutions` list. Records appended by
`resolve_conflict` (lines 356-361) carry only `id`, `resolution`,
`resolution_notes` and `resolved_date`; conflict dicts built by
`detect_conflicts` (lines 336-342) carry `id`, `hard_ontology_rule`,
`soft_ontology_rule`, `conflict_type` and `detected_date`. `Option` fields model
absent keys, exactly as `c.get(...)` reads them. -/
structure ConflictRecord where
  id : String
  resolution : Option String
  resolution_notes : Option String
  resolved_date : Option Nat
  hard_ontology_rule : Option String
  soft_ontology_rule : Option ExtractedRule
  conflict_type : Option String
  detected_date : Option Nat
deriving DecidableEq, Repr

/-- The mutable state of a `SoftOntologyManager` (lines 17-20). -/
structure Manager where
  documents : List SoftDocument
  extracted_rules : List ExtractedRule
  conflict_resolutions : List ConflictRecord
deriving DecidableEq, Repr

/-- `remove_document` (lines 37-41): filter out every document with the given
id, return whether the collection shrank. -/
def remove_document (m : Manager) (document_id : String) : Bool × Manager :=
  let initial_count := m.documents.length
  let documents := m.documents.filter (fun doc => doc.id != document_id)
  (documents.length < initial_count, { m with documents := documents })

/-- The literal `0.5` of `_parse_with_keywords` (line 313), in normalized
constructor form so that equality of rule records kernel-reduces. -/
def half : ℚ := ⟨1, 2, by decide, Nat.coprime_one_left 2⟩

/-- The literal `0.7`, the default confidence of `_parse_with_openai`
(line 283), in normalized constructor form. -/
def seven_tenths : ℚ := ⟨7, 10, by decide, by decide⟩

/-- Python's `text.split('\n')`, on the character list of the text: split at
every newline, keeping empty pieces. -/
def split_lines : List Char → List (List Char)
  | [] => [[]]
  | c :: rest =>
    match split_lines rest with
    | line :: lines =>
      if c = '\n' then [] :: line :: lines else (c :: line) :: lines
    | [] => [[]]

/-- Python's `line.strip()`: drop leading and trailing whitespace. -/
def trim_chars (l : List Char) : List Char :=
  ((l.dropWhile Char.isWhitespace).reverse.dropWhile Char.isWhitespace).reverse

/-- Python's `line.lower()` (the texts involved are ASCII). -/
def lower_chars (l : List Char) : List Char := l.map Char.toLower

/-- Whether `pat` is an initial segment of the first list. -/
def starts_with_chars : List Char → List Char → Bool
  | _, [] => true
  | [], _ :: _ => false
  | c :: cs, p :: ps => c = p && starts_with_chars cs ps

/-- Python's `pat in s`: substring containment. -/
def contains_chars : List Char → List Char → Bool
  | [], pat => pat.isEmpty
  | c :: rest, pat => starts_with_chars (c :: rest) pat || contains_chars rest pat

/-- The fixed keyword set of `_parse_with_keywords` (line 303). -/
def fallback_keywords : List String :=
  ["retention", "retain", "policy", "compliance", "regulation"]

/-- The keyword test of `_parse_with_keywords` (lines 302-303):
`any(keyword in line_lower for keyword in [...])` with `line_lower = line.lower()`. -/
def line_matches_keyword (line : List Char) : Bool :=
  fallback_keywords.any (fun keyword => contains_chars (lower_chars line) keyword.data)

/-- The rule-building loop of `_parse_with_keywords` (lines 299-316).
`stored_len` is `len(self.extracted_rules)` at call time; `acc` is the `rules`
list built so far, so the fresh id `soft_rule_{stored_len + acc.length}`
matches `f"soft_rule_{len(self.extracted_rules) + len(rules)}"`. -/
def keyword_rules (document_id : String) (now : Nat) (stored_len : Nat) :
    List (List Char) → List ExtractedRule → List ExtractedRule
  | [], acc => acc
  | line :: rest, acc =>
    if line_matches_keyword line then
      let rule : ExtractedRule :=
        { id := "soft_rule_" ++ toString (stored_len + acc.length)
          source_document := document_id
          source_document_name := none
          text := String.mk (trim_chars line)
          rule_type := "other"
          key_requirements := []
          time_periods := []
          context := ""
          extracted_date := now
          confidence := half
          extraction_method := "keyword_matching" }
      keyword_rules document_id now stored_len rest (acc ++ [rule])
    else
      keyword_rules document_id now stored_len rest acc

/-- The store loop of `_parse_with_keywords` (lines 319-321):
`if rule not in self.extracted_rules: self.extracted_rules.append(rule)` —
whole-record equality against the growing list. -/
def store_keyword_rules (stored : List ExtractedRule) :
    List ExtractedRule → List ExtractedRule
  | [] => stored
  | rule :: rest =>
    if stored.contains rule then store_keyword_rules stored rest
    else store_keyword_rules (stored ++ [rule]) rest

/-- `_parse_with_keywords` (lines 297-323): build one rule per keyword line of
`text.split('\n')`, store the new ones, return the built list. -/
def parse_with_keywords (m : Manager) (text : String) (document_id : String)
    (now : Nat) : List ExtractedRule × Manager :=
  let rules := keyword_rules document_id now m.extracted_rules.length
    (split_lines text.data) []
  (rules, { m with extracted_rules := store_keyword_rules m.extracted_rules rules })

/-- One rule object of the external service's JSON answer, after the schema of
`_parse_with_openai`. `Option` fields model keys read with `.get` defaults. -/
structure RawRule where
  rule_id : Option String
  rule_text : String
  rule_type : Option String
  key_requirements : List String
  time_periods : List String
  context : Option String
  confidence : Option ℚ
deriving DecidableEq, Repr

/-- The transform loop of `_parse_with_openai` (lines 266-288): skip raw rules
with empty text, otherwise build a rule record; `stored_len + acc.length`
matches `len(self.extracted_rules) + len(rules)`. -/
def transform_raw (document_id document_name : String) (now : Nat)
    (stored_len : Nat) : List RawRule → List ExtractedRule → List ExtractedRule
  | [], acc => acc
  | rd :: rest, acc =>
    if rd.rule_text = "" then
      transform_raw document_id document_name now stored_len rest acc
    else
      let rule : ExtractedRule :=
        { id := "soft_rule_" ++ toString (stored_len + acc.length)
          source_document := document_id
          source_document_name := some document_name
          text := rd.rule_text
          rule_type := rd.rule_type.getD "other"
          key_requirements := rd.key_requirements
          time_periods := rd.time_periods
          context := rd.context.getD ""
          extracted_date := now
          confidence := rd.confidence.getD seven_tenths
          extraction_method := "openai_gpt4o" }
      transform_raw document_id document_name now stored_len rest (acc ++ [rule])

/-- The truncation of `_parse_with_openai` (lines 198-199):
`text if len(text) <= 15000 else text[-15000:]` — keep the last 15000
characters. -/
def text_to_analyze (text : String) : String :=
  if text.length ≤ 15000 then text else text.drop (text.length - 15000)

/-- `_parse_with_openai` (lines 141-295). The external service is the
parameter `svc`, invoked on the truncated text; `none` covers the missing
client, API errors and JSON errors, each of which returns `[]` in the source
(lines 144-146, 262-264, 290-295). -/
def parse_with_openai (m : Manager) (svc : String → Option (List RawRule))
    (text document_id document_name : String) (now : Nat) : List ExtractedRule :=
  match svc (text_to_analyze text) with
  | none => []
  | some raw => transform_raw document_id document_name now
      m.extracted_rules.length raw []

/-- The store loop of `parse_policy_rules` for the primary strategy
(lines 126-133): append a rule only when no stored rule has the same text and
the same source document id. -/
def store_primary (stored : List ExtractedRule) (document_id : String) :
    List ExtractedRule → List ExtractedRule
  | [] => stored
  | rule :: rest =>
    if stored.any (fun r => r.text == rule.text && r.source_document == document_id)
    then store_primary stored document_id rest
    else store_primary (stored ++ [rule]) document_id rest

/-- `parse_policy_rules` (lines 109-139): look the document up, read its
extracted text (`not document.get("extracted_text")` also rejects the empty
string), try the primary strategy first when `use_openai`, store its rules when
it returned any, otherwise fall back to keyword extraction. -/
def parse_policy_rules (m : Manager) (svc : String → Option (List RawRule))
    (document_id : String) (use_openai : Bool) (now : Nat) :
    List ExtractedRule × Manager :=
  match m.documents.find? (fun doc => doc.id == document_id) with
  | none => ([], m)
  | some document =>
    match document.extracted_text with
    | none => ([], m)
    | some text =>
      if text = "" then ([], m)
      else
        let document_name := document.name
        if use_openai then
          let rules := parse_with_openai m svc text document_id document_name now
          if rules.length > 0 then
            (rules, { m with
              extracted_rules := store_primary m.extracted_rules document_id rules })
          else
            parse_with_keywords m text document_id now
        else
          parse_with_keywords m text document_id now

/-- The in-place update of `resolve_conflict` (lines 348-353): mutate the
first record whose id matches, leaving its other fields and all other records
untouched. -/
def update_first_resolution (conflict_id resolution resolution_notes : String)
    (now : Nat) : List ConflictRecord → List ConflictRecord
  | [] => []
  | c :: rest =>
    if c.id = conflict_id then
      { c with resolution := some resolution,
               resolution_notes := some resolution_notes,
               resolved_date := some now } :: rest
    else
      c :: update_first_resolution conflict_id resolution resolution_notes now rest

/-- `resolve_conflict` (lines 346-363): overwrite the first matching record in
place, or append a fresh record carrying only id, resolution, notes and date;
always returns `True`. -/
def resolve_conflict (m : Manager) (conflict_id resolution resolution_notes : String)
    (now : Nat) : Bool × Manager :=
  if m.conflict_resolutions.any (fun c => c.id == conflict_id) then
    let updated :=
      update_first_resolution conflict_id resolution resolution_notes now
        m.conflict_resolutions
    (true, { m with conflict_resolutions := updated })
  else
    let resolution_record : ConflictRecord :=
      { id := conflict_id
        resolution := some resolution
        resolution_notes := some resolution_notes
        resolved_date := some now
        hard_ontology_rule := none
        soft_ontology_rule := none
        conflict_type := none
        detected_date := none }
    (true, { m with conflict_resolutions :=
      m.conflict_resolutions ++ [resolution_record] })

/-- The blocking test of `get_active_rules` (lines 371-375): some record whose
resolution is not `"use_soft_ontology"` embeds a soft rule with this rule's id
(`c.get("soft_ontology_rule", {}).get("id") == rule.get("id")`; a record
without an embedded soft rule yields `None` on the left and never matches). -/
def has_blocking_conflict (m : Manager) (rule : ExtractedRule) : Bool :=
  m.conflict_resolutions.any (fun c =>
    c.resolution != some "use_soft_ontology" &&
      match c.soft_ontology_rule with
      | some sr => sr.id == rule.id
      | none => false)

/-- `get_active_rules` (lines 365-380): every extracted rule without a blocking
conflict record. -/
def get_active_rules (m : Manager) : List ExtractedRule :=
  m.extracted_rules.filter (fun rule => !(has_blocking_conflict m rule))

end SoftOntology

namespace Orchestrator

/-!
Embedding of the gated execution orchestrator of `src/app.py`
(class `ConstitutionalEnforcementUI`).

The external `ConstitutionalEnforcer` (the Decision Gateway) is modelled as an
oracle `gateway : Nat → GateResult` answering the n-th gate evaluation of the
session; a counter `gate_calls` in the state selects the next answer. This
leaves the gateway free to answer each call arbitrarily, as the source treats
it (it is an imported external collaborator).

Observable side effects — gate evaluations, tool invocations
(`TOOLS[tool_name](**params)`), enforcer audit writes (`_log_audit`) and
approval-queue writes (`request_approval` / `approve` / `deny_approval`) — are
recorded in an append-only `trace`. Actor ids and parameter payloads are opaque
to the modelled control flow and are omitted; tool steps are identified by
their tool name. Fresh approval action ids (`str(uuid.uuid4())[:8]`) are
modelled by a counter. -/

/-- The decision enum imported from `constitutional_enforcement_interactive`
(the values named by the spec's Decision Gateway interface and compared against
in `app.py`). -/
inductive Decision where
  | ALLOW
  | ALLOW_WITH_CONTROLS
  | DENY
  | REQUIRE_APPROVAL
  | ESCALATE
deriving DecidableEq, Repr

/-- `decision.value`, the string stored into execution results. -/
def Decision.value : Decision → String
  | .ALLOW => "ALLOW"
  | .ALLOW_WITH_CONTROLS => "ALLOW_WITH_CONTROLS"
  | .DENY => "DENY"
  | .REQUIRE_APPROVAL => "REQUIRE_APPROVAL"
  | .ESCALATE => "ESCALATE"

/-- The part of a gate-evaluation result that the orchestrator reads:
`result.decision` and `result.denial_reason`. -/
structure GateResult where
  decision : Decision
  denial_reason : String
deriving DecidableEq, Repr

/-- Observable side effects of a run, in order of occurrence. -/
inductive Event where
  | preGate (tool : String) (decision : Decision)
  | postGate (tool : String) (decision : Decision)
  | inputGate (decision : Decision)
  | responseGate (decision : Decision)
  | toolInvoked (tool : String)
  | auditLogged (gate action decision : String)
  | approvalRequested (action_id : Nat) (tool : String)
  | approvalGranted (action_id : Nat)
  | approvalDenied (action_id : Nat) (reason : String)
deriving DecidableEq, Repr

/-- The payload dict returned by `execute_tool_with_enforcement` alongside the
decision (error dict, approval notice, or the raw tool result, abstracted). -/
inductive Payload where
  | gateError (reason : String) (gate : String)
  | toolNotRegistered (tool : String)
  | approvalPending (action_id : Nat)
  | toolResult (tool : String)
deriving DecidableEq, Repr

/-- One entry of `st.session_state.execution_results`. -/
structure StepResult where
  step : String
  decision : String
  reason : Option String
  payload : Option Payload
deriving DecidableEq, Repr

/-- The continuation record `st.session_state.execution_state` stored when a
pre-gate returns REQUIRE_APPROVAL (`app.py` lines 602-608). The `demo_test`
key is never set by `execute_tool_with_enforcement`, the only suspension point
of the scenario pipeline modelled here, so the demo-harness continuation
branch of `continue_execution_after_approval` (lines 662-696) is dead for
these records and not modelled. -/
structure ExecState where
  tool_name : String
  action_id : Nat
deriving DecidableEq, Repr

/-- `st.session_state.pending_response` (`app.py` lines 838-841). -/
structure ResponseConfig where
  response_text : String
  citations : List String
deriving DecidableEq, Repr

/-- The orchestrator-relevant slice of `st.session_state`
(initialized in `initialize_session_state`, lines 107-135), plus the
bookkeeping needed to model the external enforcer: the gateway-call counter,
the fresh-action-id counter, and the observable event trace. -/
structure SessionState where
  execution_results : List StepResult
  execution_in_progress : Bool
  current_tool_index : Nat
  remaining_tool_calls : List String
  pending_response : Option ResponseConfig
  execution_state : Option ExecState
  pending_approval : Bool
  gate_calls : Nat
  next_action_id : Nat
  trace : List Event
deriving DecidableEq, Repr

/-- The environment: the external Decision Gateway oracle and the `TOOLS`
registry (`app.py` lines 46-51). -/
structure Env where
  gateway : Nat → GateResult
  registered_tools : List String

/-- The session state right after `initialize_session_state`. -/
def initial_state : SessionState :=
  { execution_results := []
    execution_in_progress := false
    current_tool_index := 0
    remaining_tool_calls := []
    pending_response := none
    execution_state := none
    pending_approval := false
    gate_calls := 0
    next_action_id := 0
    trace := [] }

/-- One call into the external enforcer's gate evaluation: consume the next
oracle answer. -/
def call_gate (env : Env) (s : SessionState) : GateResult × SessionState :=
  (env.gateway s.gate_calls, { s with gate_calls := s.gate_calls + 1 })

/-- `execute_tool_with_enforcement` (`app.py` lines 571-629): pre-tool gate
(S-O); on DENY return the error; on REQUIRE_APPROVAL enqueue an approval
request, log it, store the continuation record and return; otherwise check the
tool registry, invoke the tool, and run the post-result gate (S-I). -/
def execute_tool_with_enforcement (env : Env) (s : SessionState)
    (tool_name : String) : Decision × Payload × SessionState :=
  let pre_s := call_gate env s
  let pre := pre_s.1
  let s1 := { pre_s.2 with
    trace := pre_s.2.trace ++ [Event.preGate tool_name pre.decision] }
  if pre.decision = Decision.DENY then
    (Decision.DENY, Payload.gateError pre.denial_reason "S-O", s1)
  else if pre.decision = Decision.REQUIRE_APPROVAL then
    let action_id := s1.next_action_id
    let s2 := { s1 with
      next_action_id := action_id + 1
      trace := s1.trace ++
        [Event.approvalRequested action_id tool_name,
         Event.auditLogged "S-O" tool_name "REQUIRE_APPROVAL"]
      pending_approval := true
      execution_state := some { tool_name := tool_name, action_id := action_id } }
    (Decision.REQUIRE_APPROVAL, Payload.approvalPending action_id, s2)
  else if !(env.registered_tools.contains tool_name) then
    (Decision.DENY, Payload.toolNotRegistered tool_name, s1)
  else
    let s2 := { s1 with trace := s1.trace ++ [Event.toolInvoked tool_name] }
    let post_s := call_gate env s2
    let post := post_s.1
    let s3 := { post_s.2 with
      trace := post_s.2.trace ++ [Event.postGate tool_name post.decision] }
    if post.decision = Decision.DENY then
      (Decision.DENY, Payload.gateError post.denial_reason "S-I", s3)
    else
      (Decision.ALLOW, Payload.toolResult tool_name, s3)

/-- `_process_response` (`app.py` lines 776-801): evaluate the response gate
(U-O), record the outcome as a step result ("Response Output"), clear the
pending response and end the run. -/
def process_response (env : Env) (s : SessionState) : SessionState :=
  match s.pending_response with
  | none => { s with execution_in_progress := false }
  | some _response_config =>
    let uo_s := call_gate env s
    let uo := uo_s.1
    let s1 := { uo_s.2 with
      trace := uo_s.2.trace ++ [Event.responseGate uo.decision] }
    let s2 := { s1 with execution_results := s1.execution_results ++
      [({ step := "Response Output"
          decision := uo.decision.value
          reason := if uo.decision = Decision.DENY then some uo.denial_reason else none
          payload := none } : StepResult)] }
    { s2 with pending_response := none, execution_in_progress := false }

/-- `_process_remaining_tool_calls` (`app.py` lines 733-774): execute the tool
at `current_tool_index`; on REQUIRE_APPROVAL stop without recording; otherwise
record the result; on DENY end the run with the index unchanged; otherwise
advance the index and recurse; past the last index, process the pending
response or end the run.

The source recursion is bounded by the number of remaining steps: each
recursive call increments `current_tool_index` while `remaining_tool_calls` is
unchanged, so the explicit `fuel` (callers pass `remaining_tool_calls.length
+ 1`) is never exhausted. -/
def process_remaining_tool_calls (env : Env) : Nat → SessionState → SessionState
  | 0, s => s
  | fuel + 1, s =>
    let tool_calls := s.remaining_tool_calls
    let tool_index := s.current_tool_index
    if h : tool_index < tool_calls.length then
      let tool_name := tool_calls.get ⟨tool_index, h⟩
      let r := execute_tool_with_enforcement env s tool_name
      let decision := r.1
      let payload := r.2.1
      let s1 := r.2.2
      if decision = Decision.REQUIRE_APPROVAL then
        s1
      else
        let s2 := { s1 with execution_results := s1.execution_results ++
          [({ step := "Tool: " ++ tool_name
              decision := decision.value
              reason := none
              payload := some payload } : StepResult)] }
        if decision = Decision.DENY then
          { s2 with execution_in_progress := false }
        else
          let s3 := { s2 with current_tool_index := tool_index + 1 }
          process_remaining_tool_calls env fuel s3
    else
      if s.pending_response.isSome then process_response env s
      else { s with execution_in_progress := false }

/-- `continue_execution_after_approval` (`app.py` lines 631-731), for the
scenario pipeline (see `ExecState` on the dead demo branch). With no stored
continuation the call returns immediately (line 633-634). On rejection:
`deny_approval` with the comment (or "Denied via UI" when empty), a
DENIED_BY_HUMAN audit entry, a DENY step result with the fixed reason
"Action denied by user", and the run ends. On approval: `approve` and an
APPROVED audit entry, then the tool is invoked and the post-result gate
evaluated; the result is recorded and on ALLOW the index advances; the
continuation record is deleted and — whatever the post-gate said — the
remaining tool calls (or the pending response) are processed. -/
def continue_execution_after_approval (env : Env) (s : SessionState)
    (approved : Bool) (comment : String) : SessionState :=
  match s.execution_state with
  | none => s
  | some state =>
    let tool_name := state.tool_name
    let action_id := state.action_id
    if !approved then
      let deny_reason := if comment = "" then "Denied via UI" else comment
      { s with
        trace := s.trace ++
          [Event.approvalDenied action_id deny_reason,
           Event.auditLogged "S-O" tool_name "DENIED_BY_HUMAN"]
        execution_results := s.execution_results ++
          [({ step := "Tool: " ++ tool_name
              decision := "DENY"
              reason := some "Action denied by user"
              payload := none } : StepResult)]
        execution_in_progress := false
        execution_state := none }
    else
      let s1 := { s with trace := s.trace ++
        [Event.approvalGranted action_id,
         Event.auditLogged "S-O" tool_name "APPROVED"] }
      let s2 := { s1 with trace := s1.trace ++ [Event.toolInvoked tool_name] }
      let post_s := call_gate env s2
      let post := post_s.1
      let s3 := { post_s.2 with
        trace := post_s.2.trace ++ [Event.postGate tool_name post.decision] }
      let s4 :=
        if post.decision = Decision.DENY then
          { s3 with
            execution_results := s3.execution_results ++
              [({ step := "Tool: " ++ tool_name
                  decision := "DENY"
                  reason := some post.denial_reason
                  payload := none } : StepResult)]
            execution_in_progress := false }
        else
          { s3 with
            execution_results := s3.execution_results ++
              [({ step := "Tool: " ++ tool_name
                  decision := "ALLOW"
                  reason := none
                  payload := some (Payload.toolResult tool_name) } : StepResult)]
            current_tool_index := s3.current_tool_index + 1 }
      let s5 := { s4 with execution_state := none }
      if !s5.remaining_tool_calls.isEmpty then
        process_remaining_tool_calls env (s5.remaining_tool_calls.length + 1) s5
      else if s5.pending_response.isSome then
        process_response env s5
      else
        { s5 with execution_in_progress := false }

/-- A demo scenario configuration (`app.py` lines 803-841): optional user
input, ordered tool calls, optional response generation. -/
structure ScenarioConfig where
  user_input : String
  tool_calls : List String
  generate_response : Bool
  response_text : String
  citations : List String
deriving Repr

/-- Steps 2-3 of `run_demo_scenario` (lines 831-843): install the tool calls,
reset the cursor, store the response config when requested, and start the
processing loop. -/
def run_scenario_steps (env : Env) (s : SessionState) (config : ScenarioConfig) :
    SessionState :=
  let s1 := { s with
    remaining_tool_calls := config.tool_calls
    current_tool_index := 0 }
  let s2 :=
    if config.generate_response then
      let rc : ResponseConfig :=
        { response_text := config.response_text, citations := config.citations }
      { s1 with pending_response := some rc }
    else s1
  process_remaining_tool_calls env (config.tool_calls.length + 1) s2

/-- `run_demo_scenario` (`app.py` lines 803-843): mark the run in progress,
clear results and pending approval, evaluate the user-input gate (U-I) when
input is present (ending the run on DENY), then process the tool calls. -/
def run_demo_scenario (env : Env) (s : SessionState) (config : ScenarioConfig) :
    SessionState :=
  let s0 := { s with
    execution_in_progress := true
    execution_results := []
    pending_approval := false }
  if config.user_input ≠ "" then
    let ui_s := call_gate env s0
    let ui := ui_s.1
    let s1 := { ui_s.2 with
      trace := ui_s.2.trace ++ [Event.inputGate ui.decision] }
    if ui.decision = Decision.DENY then
      { s1 with
        execution_results := s1.execution_results ++
          [({ step := "User Input"
              decision := "DENY"
              reason := some ui.denial_reason
              payload := none } : StepResult)]
        execution_in_progress := false }
    else
      run_scenario_steps env s1 config
  else
    run_scenario_steps env s0 config

end Orchestrator

/-!
Concrete states and environments used to evaluate the embedded operations on
explicit inputs.
-/

namespace SoftOntology

/-- The primary extraction service when unavailable (no API key, API error, or
empty/invalid JSON): every query fails, triggering the fallback. -/
def svc_unavailable : String → Option (List RawRule) := fun _ => none

/-- A document whose extracted text is the single line "retention policy". -/
def c1_document : SoftDocument :=
  { id := "doc_0"
    name := "sop.txt"
    ftype := "text/plain"
    upload_date := 0
    size := 16
    content := []
    extracted_text := some "retention policy"
    status := "extracted" }

/-- A manager holding `c1_document` and no rules yet. -/
def c1_manager : Manager :=
  { documents := [c1_document], extracted_rules := [], conflict_resolutions := [] }

/-- A document whose extracted text is the spec's scenario line. -/
def c7_document : SoftDocument :=
  { id := "doc_7"
    name := "policy.txt"
    ftype := "text/plain"
    upload_date := 0
    size := 44
    content := []
    extracted_text := some "Data must be retained for 5 years per policy"
    status := "extracted" }

/-- A manager holding `c7_document` and no rules yet. -/
def c7_manager : Manager :=
  { documents := [c7_document], extracted_rules := [], conflict_resolutions := [] }

/-- The rule the fallback builds from the scenario line. -/
def c7_rule : ExtractedRule :=
  { id := "soft_rule_0"
    source_document := "doc_7"
    source_document_name := none
    text := "Data must be retained for 5 years per policy"
    rule_type := "other"
    key_requirements := []
    time_periods := []
    context := ""
    extracted_date := 0
    confidence := half
    extraction_method := "keyword_matching" }

/-- An extracted rule referenced by two conflict records. -/
def c2_rule : ExtractedRule :=
  { id := "soft_rule_0"
    source_document := "doc_0"
    source_document_name := none
    text := "5-year retention"
    rule_type := "other"
    key_requirements := []
    time_periods := []
    context := ""
    extracted_date := 0
    confidence := half
    extraction_method := "keyword_matching" }

/-- A conflict record against `c2_rule` resolved in favour of the soft rule. -/
def c2_conflict_soft : ConflictRecord :=
  { id := "conflict_0"
    resolution := some "use_soft_ontology"
    resolution_notes := some "org policy wins"
    resolved_date := some 1
    hard_ontology_rule := some "7-year retention baseline"
    soft_ontology_rule := some c2_rule
    conflict_type := some "retention_period"
    detected_date := some 0 }

/-- A second conflict record against the same rule resolved for the baseline. -/
def c2_conflict_hard : ConflictRecord :=
  { id := "conflict_1"
    resolution := some "use_hard_ontology"
    resolution_notes := some "regulator wins"
    resolved_date := some 2
    hard_ontology_rule := some "7-year retention baseline"
    soft_ontology_rule := some c2_rule
    conflict_type := some "retention_period"
    detected_date := some 0 }

/-- A manager whose rule has one conflict resolved `use_soft_ontology` and one
resolved otherwise. -/
def c2_manager : Manager :=
  { documents := []
    extracted_rules := [c2_rule]
    conflict_resolutions := [c2_conflict_soft, c2_conflict_hard] }

/-- One well-formed rule object in a primary-service answer. -/
def c1_raw_rule : RawRule :=
  { rule_id := some "RETENTION_001"
    rule_text := "Customer data must be retained for 5 years"
    rule_type := some "data_retention"
    key_requirements := ["5 year retention", "customer data"]
    time_periods := ["5 years"]
    context := some "Applies to all customer data"
    confidence := some half }

/-- A deterministic, available primary service answering every query with the
single rule `c1_raw_rule`. -/
def c1_svc_ok : String → Option (List RawRule) := fun _ => some [c1_raw_rule]

end SoftOntology

namespace Orchestrator

/-- The `TOOLS` registry of `app.py` (lines 46-51). -/
def demo_tools : List String :=
  ["sharepoint_read", "occ_query", "write_draft", "jira_create"]

/-- A one-tool scenario configuration (no user input, no response). -/
def one_tool_scenario : ScenarioConfig :=
  { user_input := ""
    tool_calls := ["jira_create"]
    generate_response := false
    response_text := ""
    citations := [] }

/-- Gateway for the C3 scenario: the pre-gate requires approval; any later
call allows. -/
def gateway_c3 : Nat → GateResult
  | 0 => { decision := Decision.REQUIRE_APPROVAL, denial_reason := "" }
  | _ => { decision := Decision.ALLOW, denial_reason := "" }

def env_c3 : Env := { gateway := gateway_c3, registered_tools := demo_tools }

/-- A run suspended awaiting approval of its only tool step. -/
def suspended_c3 : SessionState := run_demo_scenario env_c3 initial_state one_tool_scenario

/-- The suspended run resolved with REJECTED and an empty comment. -/
def rejected_c3 : SessionState :=
  continue_execution_after_approval env_c3 suspended_c3 false ""

/-- Gateway for the C4 scenario: approval required, then everything allowed. -/
def gateway_c4 : Nat → GateResult
  | 0 => { decision := Decision.REQUIRE_APPROVAL, denial_reason := "" }
  | _ => { decision := Decision.ALLOW, denial_reason := "" }

def env_c4 : Env := { gateway := gateway_c4, registered_tools := demo_tools }

def suspended_c4 : SessionState := run_demo_scenario env_c4 initial_state one_tool_scenario

/-- The suspended run after its first (APPROVED) resolution. -/
def resolved_c4 : SessionState :=
  continue_execution_after_approval env_c4 suspended_c4 true ""

/-- Gateway for the C5 scenario: approval required at the pre-gate, DENY at the
post-gate on resume, ALLOW afterwards. -/
def gateway_c5 : Nat → GateResult
  | 0 => { decision := Decision.REQUIRE_APPROVAL, denial_reason := "" }
  | 1 => { decision := Decision.DENY, denial_reason := "post rule violation" }
  | _ => { decision := Decision.ALLOW, denial_reason := "" }

def env_c5 : Env := { gateway := gateway_c5, registered_tools := demo_tools }

def suspended_c5 : SessionState := run_demo_scenario env_c5 initial_state one_tool_scenario

/-- The suspended run resolved with APPROVED, whose post-gate denies. -/
def resumed_c5 : SessionState :=
  continue_execution_after_approval env_c5 suspended_c5 true ""

/-- Gateway for the C6 scenario: approval required for step 0, DENY at its
post-gate on resume, ALLOW afterwards. -/
def gateway_c6 : Nat → GateResult
  | 0 => { decision := Decision.REQUIRE_APPROVAL, denial_reason := "" }
  | 1 => { decision := Decision.DENY, denial_reason := "result blocked by policy" }
  | _ => { decision := Decision.ALLOW, denial_reason := "" }

def env_c6 : Env := { gateway := gateway_c6, registered_tools := demo_tools }

/-- A two-tool scenario: step 0 is `write_draft`, step 1 is `jira_create`. -/
def two_tool_scenario : ScenarioConfig :=
  { user_input := ""
    tool_calls := ["write_draft", "jira_create"]
    generate_response := false
    response_text := ""
    citations := [] }

def suspended_c6 : SessionState := run_demo_scenario env_c6 initial_state two_tool_scenario

/-- The suspended run resolved with APPROVED, whose post-gate denies step 0. -/
def resumed_c6 : SessionState :=
  continue_execution_after_approval env_c6 suspended_c6 true ""

end Orchestrator

/-!
Theorems. Each claim's theorem is preceded by a doc comment naming the claim.
-/

namespace SoftOntology

/-- The keyword-fallback confidence literal is one half. -/
theorem half_eq_one_div_two : half = 1/2 := by
  rw [half, Rat.mk'_eq_divInt, Rat.divInt_eq_div]; norm_num

end SoftOntology

namespace Orchestrator

/-- C3 (counterexample): in a run suspended awaiting approval of its
`jira_create` step, resolving with REJECTED and an empty resolution comment
does not record the comment as the denial reason — the approval queue receives
the default reason "Denied via UI" instead. -/
theorem c3_rejected_empty_comment_counterexample :
    suspended_c3.execution_state =
      some { tool_name := "jira_create", action_id := 0 } ∧
    Event.approvalDenied 0 "" ∉ rejected_c3.trace ∧
    Event.approvalDenied 0 "Denied via UI" ∈ rejected_c3.trace := by
  refine ⟨by decide, by decide, by decide⟩

/-- C3 (amended): resolving a suspended run with REJECTED ends the run
(`execution_in_progress` cleared, suspension record deleted), records a DENY
step result with the fixed reason "Action denied by user", records the denial
in the approval queue with the human's comment as the reason when the comment
is non-empty and the default "Denied via UI" otherwise, logs DENIED_BY_HUMAN,
and never invokes any tool. -/
theorem c3_rejected_terminal_denied (env : Env) (s : SessionState)
    (es : ExecState) (comment : String)
    (h : s.execution_state = some es) :
    (continue_execution_after_approval env s false comment).execution_in_progress
        = false ∧
    (continue_execution_after_approval env s false comment).execution_state
        = none ∧
    (continue_execution_after_approval env s false comment).trace =
      s.trace ++
        [Event.approvalDenied es.action_id
           (if comment = "" then "Denied via UI" else comment),
         Event.auditLogged "S-O" es.tool_name "DENIED_BY_HUMAN"] ∧
    (continue_execution_after_approval env s false comment).execution_results =
      s.execution_results ++
        [{ step := "Tool: " ++ es.tool_name
           decision := "DENY"
           reason := some "Action denied by user"
           payload := none }] ∧
    (∀ t, Event.toolInvoked t ∈
        (continue_execution_after_approval env s false comment).trace →
      Event.toolInvoked t ∈ s.trace) := by
  refine ⟨?_, ?_, ?_, ?_, ?_⟩
  · simp [continue_execution_after_approval, h]
  · simp [continue_execution_after_approval, h]
  · simp [continue_execution_after_approval, h]
  · simp [continue_execution_after_approval, h]
  · intro t ht
    simp only [continue_execution_after_approval, h, Bool.not_false, if_true,
      List.mem_append] at ht
    rcases ht with ht | ht
    · exact ht
    · simp at ht

/-- Closed instance of the C3 theorem at the concrete suspended run. -/
theorem c3_rejected_terminal_denied_witness :
    (continue_execution_after_approval env_c3 suspended_c3 false "too risky").trace =
      suspended_c3.trace ++
        [Event.approvalDenied 0 "too risky",
         Event.auditLogged "S-O" "jira_create" "DENIED_BY_HUMAN"] :=
  (c3_rejected_terminal_denied env_c3 suspended_c3
    { tool_name := "jira_create", action_id := 0 } "too risky" (by decide)).2.2.1

/-- C4 (counterexample): the resolution entry point reports no failure in
either misuse case. With no suspension stored (no pending approval request at
all) it silently returns the state unchanged — no `UnknownApprovalId` error,
no state change, no recorded event. After a first resolution has consumed the
suspension, a second resolution of the same run is likewise a silent no-op —
no `AlreadyResolved` error. -/
theorem c4_no_failure_counterexample :
    suspended_c4.execution_state.isSome = true ∧
    resolved_c4.execution_state = none ∧
    continue_execution_after_approval env_c4 resolved_c4 true "approve again"
      = resolved_c4 ∧
    continue_execution_after_approval env_c4 initial_state true "no approval"
      = initial_state := by
  refine ⟨by decide, by decide, by decide, by decide⟩

/-- C4 (amended): when no suspension is stored, resolution is a silent no-op:
the state is returned unchanged, so neither an `UnknownApprovalId` nor an
`AlreadyResolved` failure is ever signalled, and no state changes. -/
theorem c4_resolution_without_suspension_noop (env : Env) (s : SessionState)
    (approved : Bool) (comment : String)
    (h : s.execution_state = none) :
    continue_execution_after_approval env s approved comment = s := by
  simp [continue_execution_after_approval, h]

/-- Closed instance of the C4 theorem: the second resolution of the C4 run. -/
theorem c4_resolution_without_suspension_noop_witness :
    continue_execution_after_approval env_c4 resolved_c4 false "deny now"
      = resolved_c4 :=
  c4_resolution_without_suspension_noop env_c4 resolved_c4 false "deny now"
    (by decide)

/-- C5 (code bug, evaluated at the failing input): resuming the suspended
`jira_create` step after APPROVED, with the post-result gate denying, falls
through into `_process_remaining_tool_calls` at the unadvanced index: the
resume re-issues the pre-action gate for the same step and invokes the tool a
second time. The approval audit event does precede the (first) tool
invocation. -/
theorem c5_resume_reissues_pre_gate :
    suspended_c5.execution_state =
      some { tool_name := "jira_create", action_id := 0 } ∧
    (resumed_c5.trace.drop suspended_c5.trace.length) =
      [Event.approvalGranted 0,
       Event.auditLogged "S-O" "jira_create" "APPROVED",
       Event.toolInvoked "jira_create",
       Event.postGate "jira_create" Decision.DENY,
       Event.preGate "jira_create" Decision.ALLOW,
       Event.toolInvoked "jira_create",
       Event.postGate "jira_create" Decision.ALLOW] ∧
    Event.preGate "jira_create" Decision.ALLOW ∈
      resumed_c5.trace.drop suspended_c5.trace.length ∧
    (resumed_c5.trace.drop suspended_c5.trace.length).count
      (Event.toolInvoked "jira_create") = 2 := by
  refine ⟨by decide, by decide, by decide, by decide⟩

/-- C6 (code bug, evaluated at the failing input): in the two-step run
suspended on step 0 (`write_draft`), resuming after APPROVED with a post-gate
DENY for step 0 does not terminate the run: the orchestrator re-enters the
processing loop, re-gates and re-runs step 0, advances the cursor, and
executes step 1 (`jira_create`) — a step with index greater than the denied
step — ending with the cursor at 2. -/
theorem c6_deny_does_not_freeze_run :
    suspended_c6.current_tool_index = 0 ∧
    Event.postGate "write_draft" Decision.DENY ∈ resumed_c6.trace ∧
    Event.toolInvoked "jira_create" ∈ resumed_c6.trace ∧
    resumed_c6.current_tool_index = 2 := by
  refine ⟨by decide, by decide, by decide, by decide⟩

end Orchestrator

namespace SoftOntology

/-- C9: `remove_document` removes exactly the documents carrying the given id,
returns `true` iff at least one document was removed, and leaves
`extracted_rules`, `conflict_resolutions` — and therefore the result of
`get_active_rules` — unchanged. -/
theorem c9_remove_document_frame (m : Manager) (document_id : String) :
    (remove_document m document_id).2.documents =
      m.documents.filter (fun doc => doc.id != document_id) ∧
    ((remove_document m document_id).1 = true ↔
      ∃ doc ∈ m.documents, doc.id = document_id) ∧
    (remove_document m document_id).2.extracted_rules = m.extracted_rules ∧
    (remove_document m document_id).2.conflict_resolutions
      = m.conflict_resolutions ∧
    get_active_rules (remove_document m document_id).2 = get_active_rules m := by
  refine ⟨rfl, ?_, rfl, rfl, rfl⟩
  simp only [remove_document, decide_eq_true_eq,
    List.length_filter_lt_length_iff_exists]
  simp

/-- The in-place overwrite of `resolve_conflict`, applied to a list split at
its first record with the matching id. -/
theorem update_first_resolution_split (conflict_id res notes : String)
    (now : Nat) (pre : List ConflictRecord) (c : ConflictRecord)
    (post : List ConflictRecord)
    (hpre : ∀ x ∈ pre, x.id ≠ conflict_id) (hc : c.id = conflict_id) :
    update_first_resolution conflict_id res notes now (pre ++ c :: post) =
      pre ++ { c with resolution := some res
                      resolution_notes := some notes
                      resolved_date := some now } :: post := by
  induction pre with
  | nil => simp [update_first_resolution, hc]
  | cons x xs ih =>
    have hx : x.id ≠ conflict_id := hpre x (List.mem_cons_self _ _)
    simp only [List.cons_append, update_first_resolution, if_neg hx]
    exact congrArg (List.cons x) (ih (fun y hy => hpre y (List.mem_cons_of_mem _ hy)))

/-- C10: `resolve_conflict` always returns `true` and touches neither the
documents nor the extracted rules. With an id matching no stored record it
appends a fresh record carrying only the id, the resolution, the notes and the
resolution date. With an id whose first matching record splits the collection
as `pre ++ c :: post`, it overwrites only that record's resolution, notes and
date in place — same record otherwise, same id, same collection size. -/
theorem c10_resolve_conflict_upsert (m : Manager)
    (conflict_id resolution resolution_notes : String) (now : Nat) :
    (resolve_conflict m conflict_id resolution resolution_notes now).1 = true ∧
    (resolve_conflict m conflict_id resolution resolution_notes now).2.documents
      = m.documents ∧
    (resolve_conflict m conflict_id resolution resolution_notes now).2.extracted_rules
      = m.extracted_rules ∧
    ((∀ c ∈ m.conflict_resolutions, c.id ≠ conflict_id) →
      (resolve_conflict m conflict_id resolution resolution_notes now).2.conflict_resolutions
        = m.conflict_resolutions ++
          [{ id := conflict_id
             resolution := some resolution
             resolution_notes := some resolution_notes
             resolved_date := some now
             hard_ontology_rule := none
             soft_ontology_rule := none
             conflict_type := none
             detected_date := none }]) ∧
    (∀ pre c post, m.conflict_resolutions = pre ++ c :: post →
      (∀ x ∈ pre, x.id ≠ conflict_id) → c.id = conflict_id →
      (resolve_conflict m conflict_id resolution resolution_notes now).2.conflict_resolutions
        = pre ++ { c with resolution := some resolution
                          resolution_notes := some resolution_notes
                          resolved_date := some now } :: post ∧
      (resolve_conflict m conflict_id resolution resolution_notes now).2.conflict_resolutions.length
        = m.conflict_resolutions.length) := by
  by_cases hany :
      (m.conflict_resolutions.any (fun c => c.id == conflict_id)) = true
  · refine ⟨by simp [resolve_conflict, hany], by simp [resolve_conflict, hany],
      by simp [resolve_conflict, hany], ?_, ?_⟩
    · intro hfresh
      exfalso
      rcases List.any_eq_true.mp hany with ⟨c, hc, hid⟩
      exact hfresh c hc (by simpa using hid)
    · intro pre c post heq hpre hc
      constructor
      · simp only [resolve_conflict, hany, if_true]
        rw [heq, update_first_resolution_split conflict_id resolution
          resolution_notes now pre c post hpre hc]
      · simp only [resolve_conflict, hany, if_true]
        rw [heq, update_first_resolution_split conflict_id resolution
          resolution_notes now pre c post hpre hc]
        simp
  · refine ⟨by simp [resolve_conflict, hany], by simp [resolve_conflict, hany],
      by simp [resolve_conflict, hany], ?_, ?_⟩
    · intro _
      simp [resolve_conflict, hany]
    · intro pre c post heq hpre hc
      exfalso
      apply hany
      rw [heq, List.any_eq_true]
      exact ⟨c, by simp, by simpa using hc⟩

/-- Closed instance of the C10 theorem: overwriting the existing record
`conflict_0` of the C2 manager keeps the collection size at two. -/
theorem c10_resolve_conflict_upsert_witness :
    (resolve_conflict c2_manager "conflict_0" "use_hard_ontology" "changed" 5).2.conflict_resolutions.length
      = c2_manager.conflict_resolutions.length :=
  ((c10_resolve_conflict_upsert c2_manager "conflict_0" "use_hard_ontology"
      "changed" 5).2.2.2.2 [] c2_conflict_soft [c2_conflict_hard] (by decide)
      (by intro x hx; simp at hx) (by decide)).2

/-- The blocking test of `get_active_rules`, as an existential over the stored
resolution records. -/
theorem has_blocking_conflict_iff (m : Manager) (r : ExtractedRule) :
    has_blocking_conflict m r = true ↔
      ∃ c ∈ m.conflict_resolutions,
        c.resolution ≠ some "use_soft_ontology" ∧
        ∃ sr, c.soft_ontology_rule = some sr ∧ sr.id = r.id := by
  unfold has_blocking_conflict
  rw [List.any_eq_true]
  constructor
  · rintro ⟨c, hc, hcond⟩
    rw [Bool.and_eq_true] at hcond
    obtain ⟨h1, h2⟩ := hcond
    refine ⟨c, hc, by simpa using h1, ?_⟩
    cases hsr : c.soft_ontology_rule with
    | none => rw [hsr] at h2; simp at h2
    | some sr => rw [hsr] at h2; exact ⟨sr, rfl, by simpa using h2⟩
  · rintro ⟨c, hc, h1, sr, hsr, hid⟩
    refine ⟨c, hc, ?_⟩
    rw [Bool.and_eq_true]
    refine ⟨by simpa using h1, ?_⟩
    rw [hsr]
    simpa using hid

/-- C2 (counterexample): in `c2_manager` the extracted rule has a conflict
resolved as `use_soft_ontology`, yet it is excluded from the active set,
because a second conflict record referencing it is resolved otherwise. -/
theorem c2_use_soft_not_protective_counterexample :
    c2_rule ∈ c2_manager.extracted_rules ∧
    c2_conflict_soft ∈ c2_manager.conflict_resolutions ∧
    c2_conflict_soft.resolution = some "use_soft_ontology" ∧
    c2_conflict_soft.soft_ontology_rule = some c2_rule ∧
    c2_rule ∉ get_active_rules c2_manager := by
  refine ⟨by decide, by decide, by decide, by decide, by decide⟩

/-- C2 (amended): `get_active_rules` always returns a sublist of the extracted
rules, and an extracted rule is excluded exactly when some stored resolution
record embeds a soft rule with its id and carries a resolution other than
`"use_soft_ontology"` (including resolutions for the baseline, `"both"`-style
outcomes, or absent resolutions). A `use_soft_ontology` resolution on one
conflict does not protect a rule from exclusion by another record. -/
theorem c2_active_rules_exclusion (m : Manager) :
    (∀ r ∈ get_active_rules m, r ∈ m.extracted_rules) ∧
    (∀ r ∈ m.extracted_rules,
      (r ∉ get_active_rules m ↔
        ∃ c ∈ m.conflict_resolutions,
          c.resolution ≠ some "use_soft_ontology" ∧
          ∃ sr, c.soft_ontology_rule = some sr ∧ sr.id = r.id)) := by
  constructor
  · intro r hr
    exact (List.mem_filter.mp hr).1
  · intro r hr
    rw [← has_blocking_conflict_iff]
    constructor
    · intro hnot
      cases hb : has_blocking_conflict m r with
      | false =>
        exact absurd (List.mem_filter.mpr ⟨hr, by simp [hb]⟩) hnot
      | true => rfl
    · intro hb hmem
      have h2 := (List.mem_filter.mp hmem).2
      rw [hb] at h2
      simp at h2

/-- Closed instance of the C2 theorem: the concrete exclusion of `c2_rule`. -/
theorem c2_active_rules_exclusion_witness :
    c2_rule ∉ get_active_rules c2_manager := by
  refine ((c2_active_rules_exclusion c2_manager).2 c2_rule (by decide)).mpr ?_
  exact ⟨c2_conflict_hard, by decide, by decide, c2_rule, by decide, by decide⟩

/-- C8: the text submitted to the primary extraction service is the input
itself when it has at most 15000 characters; otherwise it is exactly the final
15000 characters of the input — a suffix of length 15000. -/
theorem c8_truncation_keeps_tail (text : String) :
    (text.length ≤ 15000 → text_to_analyze text = text) ∧
    (15000 < text.length →
      (text_to_analyze text).data = text.data.drop (text.length - 15000) ∧
      (text_to_analyze text).length = 15000 ∧
      (text_to_analyze text).data <:+ text.data) := by
  constructor
  · intro h
    simp [text_to_analyze, h]
  · intro h
    have h' : ¬ text.length ≤ 15000 := by omega
    have hdata : (text_to_analyze text).data
        = text.data.drop (text.length - 15000) := by
      simp [text_to_analyze, h', String.data_drop]
    refine ⟨hdata, ?_, ?_⟩
    · show (text_to_analyze text).data.length = 15000
      rw [hdata, List.length_drop]
      have hlen : text.length = text.data.length := rfl
      omega
    · rw [hdata]
      exact List.drop_suffix _ _

/-- Closed instance of the C8 theorem: a 15001-character text is cut to its
last 15000 characters; a short text passes unchanged. -/
theorem c8_truncation_keeps_tail_witness :
    (text_to_analyze (String.mk (List.replicate 15001 'a'))).length = 15000 ∧
    text_to_analyze "Data must be retained for 5 years per policy"
      = "Data must be retained for 5 years per policy" := by
  constructor
  · exact ((c8_truncation_keeps_tail (String.mk (List.replicate 15001 'a'))).2
      (by show 15000 < (List.replicate 15001 'a').length
          rw [List.length_replicate]; omega)).2.1
  · exact (c8_truncation_keeps_tail "Data must be retained for 5 years per policy").1
      (by decide)

end SoftOntology

namespace SoftOntology

/-- The texts of the rules built by the fallback loop: one per keyword line,
the stripped line itself, in order. -/
theorem keyword_rules_texts (document_id : String) (now stored_len : Nat) :
    ∀ (lines : List (List Char)) (acc : List ExtractedRule),
      (keyword_rules document_id now stored_len lines acc).map (fun r => r.text)
        = acc.map (fun r => r.text) ++
          (lines.filter line_matches_keyword).map
            (fun l => String.mk (trim_chars l)) := by
  intro lines
  induction lines with
  | nil => intro acc; simp [keyword_rules]
  | cons line rest ih =>
    intro acc
    by_cases h : line_matches_keyword line = true
    · simp [keyword_rules, h, ih]
    · simp [keyword_rules, h, ih]

/-- Every rule built by the fallback loop (beyond the accumulator) carries the
fixed rule type, confidence, extraction method and source document. -/
theorem keyword_rules_fields (document_id : String) (now stored_len : Nat) :
    ∀ (lines : List (List Char)) (acc : List ExtractedRule),
      ∀ r ∈ keyword_rules document_id now stored_len lines acc,
        r ∈ acc ∨
          (r.rule_type = "other" ∧ r.confidence = half ∧
           r.extraction_method = "keyword_matching" ∧
           r.source_document = document_id) := by
  intro lines
  induction lines with
  | nil =>
    intro acc r hr
    exact Or.inl (by simpa [keyword_rules] using hr)
  | cons line rest ih =>
    intro acc r hr
    by_cases h : line_matches_keyword line = true
    · simp only [keyword_rules, h, if_true] at hr
      rcases ih _ r hr with hmem | hprops
      · rcases List.mem_append.mp hmem with hmem' | hmem'
        · exact Or.inl hmem'
        · simp only [List.mem_singleton] at hmem'
          subst hmem'
          exact Or.inr ⟨rfl, rfl, rfl, rfl⟩
      · exact Or.inr hprops
    · simp only [keyword_rules, h, if_false] at hr
      exact ih acc r hr

/-- C7: the keyword fallback builds exactly one rule per line containing one
of the fixed keywords — the rule's text is the stripped line, its type is
"other", its confidence 0.5 and its extraction method "keyword_matching" —
and no rule for any other line. On the scenario document whose text is the
single line "Data must be retained for 5 years per policy", with the primary
service unavailable, `parse_policy_rules` yields exactly one such rule. -/
theorem c7_fallback_rule_per_keyword_line (m : Manager) (text : String)
    (document_id : String) (now : Nat) :
    ((parse_with_keywords m text document_id now).1.map (fun r => r.text)
      = ((split_lines text.data).filter line_matches_keyword).map
          (fun l => String.mk (trim_chars l))) ∧
    (∀ r ∈ (parse_with_keywords m text document_id now).1,
      r.rule_type = "other" ∧ r.confidence = 1/2 ∧
      r.extraction_method = "keyword_matching" ∧
      r.source_document = document_id) ∧
    (parse_policy_rules c7_manager svc_unavailable "doc_7" true 0).1
      = [c7_rule] := by
  refine ⟨?_, ?_, by decide⟩
  · simpa using keyword_rules_texts document_id now m.extracted_rules.length
      (split_lines text.data) []
  · intro r hr
    have hr' : r ∈ keyword_rules document_id now m.extracted_rules.length
        (split_lines text.data) [] := hr
    rcases keyword_rules_fields document_id now m.extracted_rules.length
        (split_lines text.data) [] r hr' with hmem | hprops
    · simp at hmem
    · exact ⟨hprops.1, by rw [hprops.2.1, half_eq_one_div_two],
        hprops.2.2.1, hprops.2.2.2⟩

/-- Closed instance of the C7 theorem: the fields of the scenario rule. -/
theorem c7_fallback_rule_per_keyword_line_witness :
    c7_rule.rule_type = "other" ∧ c7_rule.confidence = 1/2 ∧
    c7_rule.extraction_method = "keyword_matching" ∧
    c7_rule.source_document = "doc_7" :=
  (c7_fallback_rule_per_keyword_line c7_manager
    "Data must be retained for 5 years per policy" "doc_7" 0).2.1 c7_rule
    (by decide)

end SoftOntology

namespace SoftOntology

/-- Rules already stored survive the primary store loop. -/
theorem store_primary_mono (document_id : String) :
    ∀ (rules stored : List ExtractedRule), ∀ r ∈ stored,
      r ∈ store_primary stored document_id rules := by
  intro rules
  induction rules with
  | nil => intro stored r hr; simpa [store_primary] using hr
  | cons a rest ih =>
    intro stored r hr
    by_cases h : (stored.any fun x =>
        x.text == a.text && x.source_document == document_id) = true
    · simpa [store_primary, h] using ih stored r hr
    · simpa [store_primary, h] using ih (stored ++ [a]) r (List.mem_append_left _ hr)

/-- A rule in the output of the primary store loop is an originally stored
rule, or had no (text, source document) match among the originally stored
rules. -/
theorem store_primary_mem (document_id : String) :
    ∀ (rules stored : List ExtractedRule),
      ∀ r ∈ store_primary stored document_id rules,
        r ∈ stored ∨
          (stored.any fun x =>
            x.text == r.text && x.source_document == document_id) = false := by
  intro rules
  induction rules with
  | nil => intro stored r hr; exact Or.inl (by simpa [store_primary] using hr)
  | cons a rest ih =>
    intro stored r hr
    by_cases h : (stored.any fun x =>
        x.text == a.text && x.source_document == document_id) = true
    · simp only [store_primary, h, if_true] at hr
      exact ih stored r hr
    · simp only [store_primary, h, if_false] at hr
      rcases ih (stored ++ [a]) r hr with hmem | hany
      · rcases List.mem_append.mp hmem with h1 | h1
        · exact Or.inl h1
        · simp only [List.mem_singleton] at h1
          subst h1
          exact Or.inr (by simpa using h)
      · right
        rw [List.any_append] at hany
        exact (Bool.or_eq_false_iff.mp hany).1

/-- After the primary store loop, every batch rule targeting the document has
a stored rule with the same text and document id. -/
theorem store_primary_covers (document_id : String) :
    ∀ (rules stored : List ExtractedRule),
      (∀ r ∈ rules, r.source_document = document_id) →
      ∀ r ∈ rules, ∃ x ∈ store_primary stored document_id rules,
        x.text = r.text ∧ x.source_document = document_id := by
  intro rules
  induction rules with
  | nil => intro stored _ r hr; simp at hr
  | cons a rest ih =>
    intro stored hsrc r hr
    by_cases h : (stored.any fun x =>
        x.text == a.text && x.source_document == document_id) = true
    · rcases List.mem_cons.mp hr with rfl | hr'
      · rcases List.any_eq_true.mp h with ⟨x, hx, hcond⟩
        rw [Bool.and_eq_true] at hcond
        refine ⟨x, ?_, by simpa using hcond.1, by simpa using hcond.2⟩
        have hx' : x ∈ store_primary stored document_id rest :=
          store_primary_mono document_id rest stored x hx
        simpa [store_primary, h] using hx'
      · have := ih stored (fun y hy => hsrc y (List.mem_cons_of_mem _ hy)) r hr'
        rcases this with ⟨x, hx, hxt, hxs⟩
        exact ⟨x, by simpa [store_primary, h] using hx, hxt, hxs⟩
    · rcases List.mem_cons.mp hr with rfl | hr'
      · refine ⟨r, ?_, rfl, hsrc r (List.mem_cons_self _ _)⟩
        have hmem : r ∈ store_primary (stored ++ [r]) document_id rest :=
          store_primary_mono document_id rest _ r
            (List.mem_append_right _ (List.mem_singleton.mpr rfl))
        simpa [store_primary, h] using hmem
      · have := ih (stored ++ [a])
          (fun y hy => hsrc y (List.mem_cons_of_mem _ hy)) r hr'
        rcases this with ⟨x, hx, hxt, hxs⟩
        exact ⟨x, by simpa [store_primary, h] using hx, hxt, hxs⟩

/-- When every batch rule already has a stored (text, document id) match, the
primary store loop adds nothing. -/
theorem store_primary_stable (document_id : String) :
    ∀ (rules stored : List ExtractedRule),
      (∀ r ∈ rules, ∃ x ∈ stored,
        x.text = r.text ∧ x.source_document = document_id) →
      store_primary stored document_id rules = stored := by
  intro rules
  induction rules with
  | nil => intro stored _; rfl
  | cons a rest ih =>
    intro stored hcov
    obtain ⟨x, hx, hxt, hxs⟩ := hcov a (List.mem_cons_self _ _)
    have h : (stored.any fun y =>
        y.text == a.text && y.source_document == document_id) = true := by
      rw [List.any_eq_true]
      refine ⟨x, hx, ?_⟩
      rw [Bool.and_eq_true]
      exact ⟨by simpa using hxt, by simpa using hxs⟩
    calc store_primary stored document_id (a :: rest)
        = store_primary stored document_id rest := by simp [store_primary, h]
      _ = stored := ih stored (fun y hy => hcov y (List.mem_cons_of_mem _ hy))

/-- The (text, source document) pairs of the transformed primary rules: one
pair per raw rule with non-empty text, after the accumulator's pairs. -/
theorem transform_raw_pairs (document_id document_name : String)
    (now stored_len : Nat) :
    ∀ (raw : List RawRule) (acc : List ExtractedRule),
      (transform_raw document_id document_name now stored_len raw acc).map
          (fun r => (r.text, r.source_document))
        = acc.map (fun r => (r.text, r.source_document)) ++
          (raw.filter (fun rd => rd.rule_text != "")).map
            (fun rd => (rd.rule_text, document_id)) := by
  intro raw
  induction raw with
  | nil => intro acc; simp [transform_raw]
  | cons rd rest ih =>
    intro acc
    by_cases h : rd.rule_text = ""
    · simp [transform_raw, h, ih]
    · simp [transform_raw, h, ih]

/-- Transformed primary rules beyond the accumulator carry the target document
id. -/
theorem transform_raw_source (document_id document_name : String)
    (now stored_len : Nat) :
    ∀ (raw : List RawRule) (acc : List ExtractedRule),
      ∀ r ∈ transform_raw document_id document_name now stored_len raw acc,
        r ∈ acc ∨ r.source_document = document_id := by
  intro raw
  induction raw with
  | nil =>
    intro acc r hr
    exact Or.inl (by simpa [transform_raw] using hr)
  | cons rd rest ih =>
    intro acc r hr
    by_cases h : rd.rule_text = ""
    · simp only [transform_raw, h, if_true] at hr
      exact ih acc r hr
    · simp only [transform_raw, h, if_false] at hr
      rcases ih _ r hr with hmem | hsrc
      · rcases List.mem_append.mp hmem with h1 | h1
        · exact Or.inl h1
        · simp only [List.mem_singleton] at h1
          subst h1
          exact Or.inr rfl
      · exact Or.inr hsrc

end SoftOntology

namespace SoftOntology

/-- C1 (counterexample): re-running `parse_policy_rules` on the same one-line
text "retention policy" (primary service unavailable, so the keyword fallback
runs) grows the stored collection from one rule to two: the fallback's store
loop compares whole records, and the second run's rule differs in its
generated id (`soft_rule_1` instead of `soft_rule_0`). -/
theorem c1_second_run_grows_counterexample :
    (parse_policy_rules c1_manager svc_unavailable "doc_0" true 0).2.extracted_rules.length
      = 1 ∧
    (parse_policy_rules (parse_policy_rules c1_manager svc_unavailable "doc_0" true 0).2
        svc_unavailable "doc_0" true 0).2.extracted_rules.length = 2 := by
  refine ⟨by decide, by decide⟩

/-- C1 (amended): for the primary strategy the dedup holds — the store loop
appends a rule only when no already-stored rule has the same (source document
id, text) pair, and with the service available, deterministic, and returning
at least one valid rule, a second run of `parse_policy_rules` on the same
document leaves the stored collection exactly as the first run left it. (The
keyword fallback lacks this: its store loop compares whole records, and fresh
ids make re-extracted rules distinct, so re-running the fallback grows the
collection — see the counterexample.) -/
theorem c1_primary_dedup_and_idempotent
    (m : Manager) (svc : String → Option (List RawRule)) (document_id : String)
    (now now' : Nat) (raw : List RawRule)
    (hsvc : ∀ t, svc t = some raw)
    (hvalid : ∃ rd ∈ raw, rd.rule_text ≠ "") :
    (∀ stored rules r, r ∈ store_primary stored document_id rules →
      r ∈ stored ∨
        ∀ x ∈ stored, ¬(x.text = r.text ∧ x.source_document = document_id)) ∧
    (parse_policy_rules (parse_policy_rules m svc document_id true now).2 svc
        document_id true now').2.extracted_rules
      = (parse_policy_rules m svc document_id true now).2.extracted_rules := by
  constructor
  · intro stored rules r hr
    rcases store_primary_mem document_id rules stored r hr with h | h
    · exact Or.inl h
    · right
      intro x hx hpair
      have hany : (stored.any fun y =>
          y.text == r.text && y.source_document == document_id) = true := by
        rw [List.any_eq_true]
        refine ⟨x, hx, ?_⟩
        rw [Bool.and_eq_true]
        exact ⟨by simpa using hpair.1, by simpa using hpair.2⟩
      simp [hany] at h
  · cases hfind : m.documents.find? (fun doc => doc.id == document_id) with
    | none => simp [parse_policy_rules, hfind]
    | some document =>
      cases htext : document.extracted_text with
      | none => simp [parse_policy_rules, hfind, htext]
      | some text =>
        by_cases hempty : text = ""
        · simp [parse_policy_rules, hfind, htext, hempty]
        · -- the primary path is taken on both runs
          have hlen : ∀ sl nw : Nat,
              (transform_raw document_id document.name nw sl raw []).length
                = (raw.filter (fun rd => rd.rule_text != "")).length := by
            intro sl nw
            have := congrArg List.length
              (transform_raw_pairs document_id document.name nw sl raw [])
            simpa using this
          have hkpos :
              0 < (raw.filter (fun rd => rd.rule_text != "")).length := by
            rcases hvalid with ⟨rd, hrd, hne⟩
            exact List.length_pos_of_mem
              (List.mem_filter.mpr ⟨hrd, by simpa using hne⟩)
          have hsrc₁ : ∀ sl nw : Nat,
              ∀ r ∈ transform_raw document_id document.name nw sl raw [],
                r.source_document = document_id := by
            intro sl nw r hr
            rcases transform_raw_source document_id document.name nw sl raw []
              r hr with h | h
            · simp at h
            · exact h
          have hrun : ∀ (mm : Manager) (nw : Nat),
              mm.documents.find? (fun doc => doc.id == document_id)
                  = some document →
              (parse_policy_rules mm svc document_id true nw).2.extracted_rules
                  = store_primary mm.extracted_rules document_id
                      (transform_raw document_id document.name nw
                        mm.extracted_rules.length raw []) ∧
              (parse_policy_rules mm svc document_id true nw).2.documents
                  = mm.documents := by
            intro mm nw hfindm
            have hred : parse_policy_rules mm svc document_id true nw =
                (transform_raw document_id document.name nw
                   mm.extracted_rules.length raw [],
                 Manager.mk mm.documents
                   (store_primary mm.extracted_rules document_id
                     (transform_raw document_id document.name nw
                       mm.extracted_rules.length raw []))
                   mm.conflict_resolutions) := by
              simp only [parse_policy_rules, hfindm, htext]
              rw [if_neg hempty]
              simp only [parse_with_openai, hsvc, if_true]
              rw [if_pos]
              rw [hlen]
              exact hkpos
            rw [hred]
            exact ⟨rfl, rfl⟩
          have hrun₁ := hrun m now hfind
          have hfind₂ :
              (parse_policy_rules m svc document_id true now).2.documents.find?
                (fun doc => doc.id == document_id) = some document := by
            rw [hrun₁.2]
            exact hfind
          have hrun₂ := hrun (parse_policy_rules m svc document_id true now).2
            now' hfind₂
          rw [hrun₂.1, hrun₁.1]
          apply store_primary_stable
          intro r hr
          have hpair : (r.text, r.source_document) ∈
              (transform_raw document_id document.name now'
                (store_primary m.extracted_rules document_id
                  (transform_raw document_id document.name now
                    m.extracted_rules.length raw [])).length raw []).map
                (fun r => (r.text, r.source_document)) :=
            List.mem_map_of_mem _ hr
          rw [transform_raw_pairs] at hpair
          simp only [List.map_nil, List.nil_append] at hpair
          have hpair₁ : (r.text, r.source_document) ∈
              (transform_raw document_id document.name now
                m.extracted_rules.length raw []).map
                (fun r => (r.text, r.source_document)) := by
            rw [transform_raw_pairs]
            simpa using hpair
          obtain ⟨r₁, hr₁, heq⟩ := List.mem_map.mp hpair₁
          have ht : r₁.text = r.text := by
            have := congrArg Prod.fst heq
            simpa using this
          obtain ⟨x, hx, hxt, hxs⟩ := store_primary_covers document_id
            (transform_raw document_id document.name now
              m.extracted_rules.length raw []) m.extracted_rules
            (hsrc₁ _ now) r₁ hr₁
          exact ⟨x, hx, by rw [hxt, ht], hxs⟩

/-- Closed instance of the C1 theorem: with the available service `c1_svc_ok`
a second run adds nothing to the collection. -/
theorem c1_primary_dedup_and_idempotent_witness :
    (parse_policy_rules (parse_policy_rules c1_manager c1_svc_ok "doc_0" true 0).2
        c1_svc_ok "doc_0" true 1).2.extracted_rules
      = (parse_policy_rules c1_manager c1_svc_ok "doc_0" true 0).2.extracted_rules :=
  (c1_primary_dedup_and_idempotent c1_manager c1_svc_ok "doc_0" 0 1
    [c1_raw_rule] (fun _ => rfl) ⟨c1_raw_rule, by decide, by decide⟩).2

end SoftOntology

namespace SoftOntology

/-- Closed instance of the C9 theorem: removing the stored document returns
`true`. -/
theorem c9_remove_document_frame_witness :
    (remove_document c1_manager "doc_0").1 = true :=
  (c9_remove_document_frame c1_manager "doc_0").2.1.mpr
    ⟨c1_document, by decide, by decide⟩

end SoftOntology
